import Mathlib

/-
  Verification of the LearnLab HTTP learning-guide service.

  The development shallowly embeds the two server variants of the repository:
  the stateless variant (src/server.js, endpoint GET /api/learn) and the
  AI variant (src/unnamed/part_000, endpoint GET /api/topic).  Pure string
  manipulation is modelled over List Char, the in-memory rate limiter as a
  pure function on an explicit timestamp history, and the HTTP handlers as
  pure functions of their inputs (query parameter, AI availability, the
  outcome of the external AI call, the current clock value and the current
  rate history).
-/

namespace LearnLab

/- ===== Model of the JavaScript string primitives used by the sources ===== -/

/-- JavaScript whitespace class (the ASCII part of regex \s and of trim). -/
def jsWs (c : Char) : Bool :=
  c = ' ' || c = '\t' || c = '\n' || c = '\r' || c = '\x0b' || c = '\x0c'

/-- JavaScript String.prototype.trim. -/
def jsTrim (s : String) : String :=
  String.mk (((s.data.dropWhile jsWs).reverse.dropWhile jsWs).reverse)

/-- JavaScript String.prototype.toLowerCase (ASCII fragment). -/
def toLowerJs (s : String) : String :=
  String.mk (s.data.map Char.toLower)

/-- JavaScript topic.charAt(0).toUpperCase() + topic.slice(1) (ASCII fragment). -/
def capitalizeJs (s : String) : String :=
  match s.data with
  | [] => ""
  | c :: rest => String.mk (c.toUpper :: rest)

/-- Substring containment on character lists (String.prototype.includes). -/
def containsSub : List Char → List Char → Bool
  | hay, needle =>
    needle.isPrefixOf hay ||
      (match hay with
       | [] => false
       | _ :: t => containsSub t needle)

/-- JavaScript hay.includes(sub). -/
def jsIncludes (hay sub : String) : Bool := containsSub hay.data sub.data

/-- JavaScript s.startsWith(p). -/
def startsWithJs (s p : String) : Bool := p.data.isPrefixOf s.data

/- ===== Data model ===== -/

/-- A practice task as produced by every generator of the repository. -/
structure Task where
  title : String
  description : String
  difficulty : String
  hint : String
deriving DecidableEq

/-- The learning-guide record of the stateless variant (title, explanation, tasks). -/
structure Guide where
  title : String
  explanation : String
  tasks : List Task
deriving DecidableEq

/-- The envelope returned by generateEnhancedFallbackContent / generateLearningWithAI
    in src/server.js. -/
structure LearnResult where
  success : Bool
  topic : String
  guide : Guide
  source : String
  message : String
deriving DecidableEq

/-- The JSON object obtained from parsing the external AI response; every field
    the servers look at may be absent. -/
structure ParsedAI where
  title : Option String
  explanation : Option String
  tasks : Option (List Task)
  stream : Option String
  category : Option String
  related_topics : Option (List String)
deriving DecidableEq

/-- The response object of the AI variant (src/unnamed/part_000): the parsed AI
    data, or the fallback object, plus stamped metadata. -/
structure AIResponse where
  title : Option String
  explanation : Option String
  tasks : Option (List Task)
  stream : Option String
  category : Option String
  related_topics : Option (List String)
  source : Option String
  generated_at : Option String
  ai_model : Option String
  note : Option String
deriving DecidableEq

/-- The concrete fallback object literal built by getFallbackResponse in
    src/unnamed/part_000 (all fields present). -/
structure TopicGuide where
  title : String
  explanation : String
  tasks : List Task
  stream : String
  category : String
  related_topics : List String
  source : String
  note : String
deriving DecidableEq

/- ===== src/server.js : enhanced fallback content ===== -/

def pythonExplanation : String :=
  "# Python Programming Mastery Guide\n\n## What is Python?\nPython is a high-level, interpreted programming language known for its simplicity, readability, and versatility. Created by Guido van Rossum in 1991, Python emphasizes code readability with its notable use of significant whitespace.\n\n## Why Learn Python?\n### Easy to Learn\n- Simple syntax similar to English\n- Minimal boilerplate code\n- Great for beginners and experts alike\n\n### Versatile Applications\n- **Web Development**: Django, Flask frameworks\n- **Data Science**: Pandas, NumPy, SciPy\n- **Machine Learning**: TensorFlow, PyTorch, Scikit-learn\n- **Automation**: Scripting and task automation\n- **Game Development**: PyGame library\n- **Scientific Computing**: Research and analysis\n\n### High Demand\n- Used by Google, Netflix, Instagram, Spotify\n- One of the highest-paying programming skills\n- Extensive job opportunities across industries\n\n## Core Python Concepts\n\n### 1. Variables and Data Types\n\x60\x60\x60python\n# Variables store data\nname = \"Alice\"\nage = 25\nheight = 5.6\nis_student = True\n\n# Data Types\n# - int: Integer numbers (42)\n# - float: Decimal numbers (3.14)\n# - str: Text data (\"Hello\")\n# - bool: True/False values\n# - list: Ordered collection [1, 2, 3]\n# - tuple: Immutable collection (1, 2, 3)\n# - dict: Key-value pairs \x7b\"name\": \"Alice\"\x7d\n# - set: Unique unordered collection \x7b1, 2, 3\x7d\n\x60\x60\x60\n\n### 2. Control Structures\n\x60\x60\x60python\n# Conditional statements\nif age >= 18:\n    print(\"Adult\")\nelif age >= 13:\n    print(\"Teenager\")\nelse:\n    print(\"Child\")\n\n# Loops\nfor i in range(5):\n    print(f\"Number: \x7bi\x7d\")\n\ncount = 0\nwhile count < 5:\n    print(count)\n    count += 1\n\x60\x60\x60\n\n### 3. Functions\n\x60\x60\x60python\ndef greet(name, greeting=\"Hello\"):\n    \"\"\"Return a greeting message\"\"\"\n    return f\"\x7bgreeting\x7d, \x7bname\x7d!\"\n\n# Function call\nmessage = greet(\"Alice\")\nprint(message)  # Output: Hello, Alice!\n\x60\x60\x60\n\n### 4. Data Structures\n\x60\x60\x60python\n# Lists (mutable, ordered)\nfruits = [\"apple\", \"banana\", \"cherry\"]\nfruits.append(\"orange\")\n\n# Dictionaries (key-value pairs)\nstudent = \x7b\n    \"name\": \"Alice\",\n    \"age\": 20,\n    \"courses\": [\"Math\", \"Science\"]\n\x7d\n\n# Sets (unique elements)\nunique_numbers = \x7b1, 2, 3, 3, 2\x7d  # Becomes \x7b1, 2, 3\x7d\n\x60\x60\x60\n\n## Real-World Applications\n\n### Web Development with Flask\n\x60\x60\x60python\nfrom flask import Flask\napp = Flask(__name__)\n\n@app.route(\x27/\x27)\ndef home():\n    return \"Welcome to my Python web app!\"\n\nif __name__ == \x27__main__\x27:\n    app.run(debug=True)\n\x60\x60\x60\n\n### Data Analysis with Pandas\n\x60\x60\x60python\nimport pandas as pd\n\n# Load data\ndata = pd.read_csv(\x27data.csv\x27)\n\n# Analyze data\naverage = data[\x27score\x27].mean()\ntop_students = data[data[\x27score\x27] > 90]\n\x60\x60\x60\n\n### Automation Script\n\x60\x60\x60python\nimport os\nimport shutil\n\n# Organize files by extension\ndef organize_files(directory):\n    for filename in os.listdir(directory):\n        if os.path.isfile(os.path.join(directory, filename)):\n            extension = filename.split(\x27.\x27)[-1]\n            folder_path = os.path.join(directory, extension)\n            os.makedirs(folder_path, exist_ok=True)\n            shutil.move(\n                os.path.join(directory, filename),\n                os.path.join(folder_path, filename)\n            )\n\x60\x60\x60\n\n## Learning Path\n\n### Month 1: Python Basics\n- Variables and data types\n- Control structures (if, for, while)\n- Functions and modules\n- Basic data structures\n\n### Month 2: Intermediate Python\n- Object-Oriented Programming\n- File handling\n- Error handling (try-except)\n- Working with APIs\n\n### Month 3: Specialization\n- Choose a path: Web, Data Science, ML, etc.\n- Learn relevant frameworks\n- Build portfolio projects\n\n### Month 4: Advanced Topics\n- Concurrency and parallelism\n- Performance optimization\n- Design patterns\n- Contributing to open source\n\n## Best Practices\n\n1. **Write Readable Code**\n   - Use descriptive variable names\n   - Follow PEP 8 style guide\n   - Add comments and docstrings\n\n2. **Test Your Code**\n   - Write unit tests\n   - Use debugging tools\n   - Handle exceptions gracefully\n\n3. **Learn Continuously**\n   - Read Python documentation\n   - Follow Python communities\n   - Contribute to projects\n\n## Resources\n- **Official**: python.org\n- **Learning**: Real Python, Python.org Tutorial\n- **Practice**: LeetCode, HackerRank, Codewars\n- **Community**: r/learnpython, Python Discord\n\nStart your Python journey today! Remember: consistent practice and building projects is key to mastery."

def databaseExplanation : String :=
  "# Database Fundamentals: Complete Guide\n\n## What is a Database?\nA database is an organized collection of structured data stored electronically in a computer system. Databases are managed by Database Management Systems (DBMS) that handle data storage, retrieval, security, and integrity.\n\n## Types of Databases\n\n### 1. Relational Databases (SQL)\n- **MySQL**: Open-source, widely used for web applications\n- **PostgreSQL**: Advanced features, ACID compliant\n- **SQLite**: Lightweight, file-based, great for mobile/local apps\n- **Oracle**: Enterprise-level, robust features\n- **SQL Server**: Microsoft\x27s solution, integrates with .NET\n\n### 2. NoSQL Databases\n- **MongoDB**: Document-oriented, flexible schema\n- **Redis**: In-memory key-value store, extremely fast\n- **Cassandra**: Distributed, handles large datasets\n- **Neo4j**: Graph database for relationship-heavy data\n\n## Core Database Concepts\n\n### 1. Tables and Relationships\n\x60\x60\x60sql\n-- Creating tables\nCREATE TABLE Students (\n    student_id INT PRIMARY KEY,\n    name VARCHAR(100) NOT NULL,\n    email VARCHAR(100) UNIQUE,\n    enrollment_date DATE DEFAULT CURRENT_DATE\n);\n\nCREATE TABLE Courses (\n    course_id INT PRIMARY KEY,\n    title VARCHAR(200) NOT NULL,\n    credits INT CHECK (credits > 0)\n);\n\n-- Many-to-Many relationship table\nCREATE TABLE Enrollments (\n    enrollment_id INT PRIMARY KEY,\n    student_id INT REFERENCES Students(student_id),\n    course_id INT REFERENCES Courses(course_id),\n    grade CHAR(1),\n    UNIQUE(student_id, course_id)\n);\n\x60\x60\x60\n\n### 2. CRUD Operations\n\x60\x60\x60sql\n-- CREATE (Insert)\nINSERT INTO Students (student_id, name, email)\nVALUES (1, \x27Alice Johnson\x27, \x27alice@email.com\x27);\n\n-- READ (Select)\nSELECT * FROM Students WHERE enrollment_date >= \x272024-01-01\x27;\n\n-- UPDATE\nUPDATE Students \nSET email = \x27newemail@email.com\x27\nWHERE student_id = 1;\n\n-- DELETE\nDELETE FROM Students WHERE student_id = 1;\n\x60\x60\x60\n\n### 3. Advanced Queries\n\x60\x60\x60sql\n-- JOIN operations\nSELECT s.name, c.title, e.grade\nFROM Students s\nJOIN Enrollments e ON s.student_id = e.student_id\nJOIN Courses c ON e.course_id = c.course_id\nWHERE e.grade = \x27A\x27;\n\n-- Aggregation\nSELECT \n    c.title,\n    COUNT(e.student_id) as total_students,\n    AVG(CASE \n        WHEN e.grade = \x27A\x27 THEN 4.0\n        WHEN e.grade = \x27B\x27 THEN 3.0\n        WHEN e.grade = \x27C\x27 THEN 2.0\n        ELSE 0 \n    END) as average_gpa\nFROM Courses c\nLEFT JOIN Enrollments e ON c.course_id = e.course_id\nGROUP BY c.course_id, c.title;\n\n-- Subqueries\nSELECT name FROM Students\nWHERE student_id IN (\n    SELECT student_id FROM Enrollments\n    GROUP BY student_id\n    HAVING COUNT(*) > 3\n);\n\x60\x60\x60\n\n## Database Design Principles\n\n### 1. Normalization\n- **1NF**: Atomic values, no repeating groups\n- **2NF**: No partial dependencies\n- **3NF**: No transitive dependencies\n- **BCNF**: Boyce-Codd Normal Form\n\n### 2. Indexing for Performance\n\x60\x60\x60sql\n-- Creating indexes\nCREATE INDEX idx_student_email ON Students(email);\nCREATE INDEX idx_enrollment_grade ON Enrollments(grade);\n\n-- Composite index\nCREATE INDEX idx_student_course ON Enrollments(student_id, course_id);\n\x60\x60\x60\n\n### 3. Transactions and ACID Properties\n- **Atomicity**: All or nothing execution\n- **Consistency**: Data integrity maintained\n- **Isolation**: Concurrent transactions don\x27t interfere\n- **Durability**: Committed changes persist\n\n\x60\x60\x60sql\nBEGIN TRANSACTION;\n-- Multiple operations\nUPDATE Accounts SET balance = balance - 100 WHERE account_id = 1;\nUPDATE Accounts SET balance = balance + 100 WHERE account_id = 2;\n-- Rollback on error, Commit on success\nCOMMIT;\n\x60\x60\x60\n\n## Real-World Database Scenarios\n\n### E-commerce Database Design\n\x60\x60\x60sql\n-- Core tables for e-commerce\nCREATE TABLE Users (\n    user_id SERIAL PRIMARY KEY,\n    username VARCHAR(50) UNIQUE NOT NULL,\n    email VARCHAR(100) UNIQUE NOT NULL,\n    password_hash VARCHAR(255) NOT NULL,\n    created_at TIMESTAMP DEFAULT CURRENT_TIMESTAMP\n);\n\nCREATE TABLE Products (\n    product_id SERIAL PRIMARY KEY,\n    name VARCHAR(200) NOT NULL,\n    description TEXT,\n    price DECIMAL(10,2) NOT NULL,\n    stock_quantity INT DEFAULT 0,\n    category_id INT REFERENCES Categories(category_id)\n);\n\nCREATE TABLE Orders (\n    order_id SERIAL PRIMARY KEY,\n    user_id INT REFERENCES Users(user_id),\n    total_amount DECIMAL(10,2),\n    status VARCHAR(20) DEFAULT \x27pending\x27,\n    created_at TIMESTAMP DEFAULT CURRENT_TIMESTAMP\n);\n\nCREATE TABLE Order_Items (\n    order_item_id SERIAL PRIMARY KEY,\n    order_id INT REFERENCES Orders(order_id),\n    product_id INT REFERENCES Products(product_id),\n    quantity INT NOT NULL,\n    price_at_time DECIMAL(10,2)\n);\n\x60\x60\x60\n\n### Social Media Database Pattern\n\x60\x60\x60sql\n-- Social media relationships\nCREATE TABLE Posts (\n    post_id SERIAL PRIMARY KEY,\n    user_id INT REFERENCES Users(user_id),\n    content TEXT NOT NULL,\n    media_url VARCHAR(500),\n    created_at TIMESTAMP DEFAULT CURRENT_TIMESTAMP\n);\n\nCREATE TABLE Follows (\n    follower_id INT REFERENCES Users(user_id),\n    following_id INT REFERENCES Users(user_id),\n    created_at TIMESTAMP DEFAULT CURRENT_TIMESTAMP,\n    PRIMARY KEY (follower_id, following_id)\n);\n\nCREATE TABLE Likes (\n    like_id SERIAL PRIMARY KEY,\n    user_id INT REFERENCES Users(user_id),\n    post_id INT REFERENCES Posts(post_id),\n    created_at TIMESTAMP DEFAULT CURRENT_TIMESTAMP,\n    UNIQUE(user_id, post_id)\n);\n\x60\x60\x60\n\n## Performance Optimization\n\n### 1. Query Optimization\n\x60\x60\x60sql\n-- Instead of SELECT *\nSELECT id, name, email FROM Users;\n\n-- Use EXISTS instead of IN for large datasets\nSELECT * FROM Users u\nWHERE EXISTS (\n    SELECT 1 FROM Orders o \n    WHERE o.user_id = u.user_id\n);\n\n-- Limit result sets\nSELECT * FROM Products \nORDER BY created_at DESC \nLIMIT 20 OFFSET 0;\n\x60\x60\x60\n\n### 2. Connection Pooling\n- Reuse database connections\n- Reduce connection overhead\n- Manage concurrent connections efficiently\n\n### 3. Caching Strategies\n- Query result caching\n- Frequently accessed data in memory\n- Cache invalidation policies\n\n## Security Best Practices\n\n### 1. SQL Injection Prevention\n\x60\x60\x60python\n# BAD: Vulnerable to SQL injection\nquery = f\"SELECT * FROM Users WHERE username = \x27\x7buser_input\x7d\x27\"\n\n# GOOD: Parameterized queries\nquery = \"SELECT * FROM Users WHERE username = %s\"\ncursor.execute(query, (user_input,))\n\x60\x60\x60\n\n### 2. Access Control\n- Principle of least privilege\n- Role-based access control (RBAC)\n- Regular permission reviews\n\n### 3. Data Encryption\n- Encrypt sensitive data at rest\n- Use SSL/TLS for data in transit\n- Secure password hashing (bcrypt, Argon2)\n\n## Learning Path\n\n### Phase 1: Fundamentals (1-2 months)\n- Basic SQL syntax\n- Database design principles\n- Simple CRUD operations\n\n### Phase 2: Intermediate (2-3 months)\n- Advanced SQL queries\n- Indexing and optimization\n- Transaction management\n\n### Phase 3: Advanced (3-4 months)\n- Database administration\n- Performance tuning\n- Replication and sharding\n- NoSQL databases\n\n### Phase 4: Specialization (4+ months)\n- Cloud databases (AWS RDS, Azure SQL)\n- Big data technologies\n- Data warehousing\n- Database security\n\n## Career Opportunities\n\n### 1. Database Administrator (DBA)\n- Install, configure, and maintain databases\n- Backup and recovery planning\n- Performance monitoring and tuning\n- Security management\n\n### 2. Database Developer\n- Design and implement database schemas\n- Write optimized queries and stored procedures\n- Develop database applications\n- Data migration and ETL processes\n\n### 3. Data Analyst/Engineer\n- Extract insights from data\n- Build data pipelines\n- Create reports and dashboards\n- Implement data warehouses\n\n## Tools and Technologies\n\n### SQL Clients\n- **pgAdmin**: PostgreSQL administration\n- **MySQL Workbench**: MySQL GUI tool\n- **DBeaver**: Universal database tool\n- **DataGrip**: JetBrains database IDE\n\n### Monitoring Tools\n- **Prometheus**: Metrics collection\n- **Grafana**: Visualization and dashboards\n- **Percona Monitoring**: MySQL/PostgreSQL monitoring\n\n### ORM Tools\n- **SQLAlchemy** (Python)\n- **Sequelize** (JavaScript)\n- **Hibernate** (Java)\n- **Entity Framework** (.NET)\n\n## Best Practices Summary\n\n1. **Design First**: Plan your database schema carefully\n2. **Normalize Properly**: But don\x27t over-normalize\n3. **Index Strategically**: Index columns used in WHERE, JOIN, ORDER BY\n4. **Backup Regularly**: Automated backups with test restores\n5. **Monitor Performance**: Regular query optimization\n6. **Secure Always**: Implement proper authentication and authorization\n7. **Document Everything**: Schema, procedures, and changes\n8. **Test Thoroughly**: Unit tests for database operations\n9. **Version Control**: Database schema changes in version control\n10. **Scale Thoughtfully**: Plan for growth from the beginning\n\nStart your database journey by building small projects and gradually increasing complexity. Practice is key to mastering database concepts!"

def generateDefaultExplanation (topic : String) : String :=
  "# Comprehensive Guide to " ++
    capitalizeJs topic ++
    "\n\n## What is " ++
    topic ++
    "?\n" ++
    topic ++
    " is a concept/technology/skill that involves [basic definition]. It\x27s important in today\x27s world because [relevance].\n\n## Core Concepts\n- **Fundamental Principle**: The basic idea behind " ++
    topic ++
    "\n- **Key Components**: Main elements that make up " ++
    topic ++
    "\n- **Working Mechanism**: How " ++
    topic ++
    " functions in practice\n- **Applications**: Where and how " ++
    topic ++
    " is used\n- **Benefits**: Advantages of understanding/using " ++
    topic ++
    "\n\n## Learning Objectives\nBy studying " ++
    topic ++
    ", you will:\n1. Understand the fundamental principles\n2. Recognize practical applications\n3. Develop problem-solving skills\n4. Gain hands-on experience\n5. Build a foundation for advanced topics\n\n## Step-by-Step Learning Path\n### Week 1: Foundation\n- Learn basic terminology\n- Understand core concepts\n- Study simple examples\n\n### Week 2: Application\n- Work on small exercises\n- Apply concepts to problems\n- Build simple projects\n\n### Week 3: Mastery\n- Tackle complex challenges\n- Explore advanced topics\n- Create comprehensive projects\n\n### Week 4: Real-World Application\n- Solve actual problems\n- Optimize solutions\n- Prepare for professional use\n\n## Common Use Cases\n1. **Industry Applications**: How businesses use " ++
    topic ++
    "\n2. **Educational Value**: Learning benefits of " ++
    topic ++
    "\n3. **Research Potential**: How " ++
    topic ++
    " advances knowledge\n4. **Personal Projects**: Creative applications of " ++
    topic ++
    "\n\n## Tools and Resources\n- **Learning Platforms**: Online courses and tutorials\n- **Practice Tools**: Software and environments\n- **Community**: Forums and discussion groups\n- **Documentation**: Official guides and references\n\n## Tips for Success\n- **Start Small**: Begin with basic concepts\n- **Practice Regularly**: Consistency is key\n- **Build Projects**: Apply knowledge practically\n- **Seek Help**: Join communities and ask questions\n- **Stay Updated**: Follow latest developments\n\n## Next Steps\n1. Research basic definitions\n2. Complete beginner exercises\n3. Join relevant communities\n4. Start a small project\n5. Share your learning with others\n\nRemember: The key to mastering " ++
    topic ++
    " is consistent practice and application. Don\x27t just memorize - understand the underlying principles and apply them to real problems."

def fallbackExplanation (topic : String) : String :=
  "Let\x27s explore \"" ++
    topic ++
    "\" together. This topic covers important concepts that are valuable to understand.\n\nStart with these steps:\n1. Research basic definitions from reliable sources\n2. Identify key principles and components\n3. Find real-world applications\n4. Practice with examples\n5. Teach someone else to reinforce learning"

/-- The pre-authored python entry of enhancedTopics (src/server.js lines 218-427). -/
def pythonGuide : Guide :=
  { title := "Python Programming: Complete Practical Guide"
    explanation := pythonExplanation
    tasks :=
      [ { title := "Build a Personal Information Manager"
          description := "Create a program that stores personal details (name, age, contacts, notes) and allows searching, updating, and displaying information."
          difficulty := "beginner"
          hint := "Use dictionaries to store information and functions for different operations." }
      , { title := "Create a Weather Data Analyzer"
          description := "Build a program that fetches weather data from an API, stores it, and provides statistics (average temperature, max/min, trends over time)."
          difficulty := "intermediate"
          hint := "Use requests library for API calls, pandas for data analysis, and matplotlib for visualization." }
      , { title := "Develop a Task Automation System"
          description := "Create a system that automates repetitive tasks: file organization, email sending, data backup, and report generation with scheduling."
          difficulty := "advanced"
          hint := "Use os and shutil for file operations, smtplib for emails, schedule library for automation, and logging for tracking." } ] }

/-- The pre-authored database entry of enhancedTopics (src/server.js lines 428-776). -/
def databaseGuide : Guide :=
  { title := "Database Design and Management: Complete Guide"
    explanation := databaseExplanation
    tasks :=
      [ { title := "Design a Library Management System"
          description := "Create a complete database schema for a library including: Books, Members, Borrowing Records, Authors, and Publishers. Implement all necessary relationships and constraints."
          difficulty := "beginner"
          hint := "Focus on proper table relationships (one-to-many, many-to-many) and implement basic CRUD operations." }
      , { title := "Build an E-commerce Analytics Dashboard"
          description := "Design queries to analyze sales data: monthly revenue, top-selling products, customer purchase patterns, and inventory turnover rates."
          difficulty := "intermediate"
          hint := "Use aggregation functions, window functions, and complex joins to extract business insights." }
      , { title := "Implement a Database Migration System"
          description := "Create a system to handle database schema migrations, versioning, rollback capabilities, and automated deployment for a production environment."
          difficulty := "advanced"
          hint := "Consider using tools like Flyway or Liquibase as inspiration, and implement safe migration practices." } ] }

/-- The enhancedTopics table in its source iteration order (Object.entries order
    equals insertion order for string keys). -/
def enhancedTopics : List (String × Guide) :=
  [("python", pythonGuide), ("database", databaseGuide)]

/-- The three generic tasks (generateDefaultTasks, src/server.js lines 189-210). -/
def generateDefaultTasks (topic : String) : List Task :=
  [ { title := "Research and Define " ++ topic
      description := "Find 3-5 reliable sources about " ++ topic ++ " and create a summary in your own words. Include: definition, key concepts, and real-world applications."
      difficulty := "beginner"
      hint := "Start with Wikipedia, educational websites, and official documentation. Focus on understanding, not just copying." }
  , { title := "Create a " ++ topic ++ " Concept Map"
      description := "Design a visual diagram showing the main components of " ++ topic ++ ", their relationships, and how they work together."
      difficulty := "intermediate"
      hint := "Use tools like draw.io, Lucidchart, or even paper. Start with the central concept and branch out to related ideas." }
  , { title := "Design a Practical " ++ topic ++ " Application"
      description := "Identify a real-world problem that could be solved using " ++ topic ++ ". Create a detailed plan including: problem statement, solution approach, required resources, and expected outcomes."
      difficulty := "advanced"
      hint := "Think about problems in your community, workplace, or area of interest. Consider feasibility and impact." } ]

/-- The for-of lookup loop over Object.entries(enhancedTopics)
    (src/server.js lines 780-791): first key whose substring occurs in the
    lower-cased topic wins. -/
def findEnhanced : List (String × Guide) → String → Option (String × Guide)
  | [], _ => none
  | (k, g) :: rest, lowerTopic =>
    if jsIncludes lowerTopic k then some (k, g) else findEnhanced rest lowerTopic

/-- generateEnhancedFallbackContent (src/server.js lines 213-806). -/
def generateEnhancedFallbackContent (topic : String) : LearnResult :=
  let lowerTopic := toLowerJs topic
  match findEnhanced enhancedTopics lowerTopic with
  | some (_, content) =>
    { success := true
      topic := topic
      guide := content
      source := "enhanced_local_detailed"
      message := "Detailed learning guide from enhanced local database" }
  | none =>
    { success := true
      topic := topic
      guide :=
        { title := "Comprehensive Guide to " ++ capitalizeJs topic
          explanation := generateDefaultExplanation topic
          tasks := generateDefaultTasks topic }
      source := "generated_detailed"
      message := "Generated detailed learning guide" }

/-- JavaScript x || d on a possibly-absent string field (undefined and the
    empty string are falsy). -/
def jsOrStr (v : Option String) (d : String) : String :=
  match v with
  | none => d
  | some s => if s = "" then d else s

/-- JavaScript x || d on a possibly-absent array field (an empty array is truthy). -/
def jsOrTasks (v : Option (List Task)) (d : List Task) : List Task :=
  match v with
  | none => d
  | some l => l

/-- The validate-and-enhance step of generateLearningWithAI on successfully
    parsed AI data (src/server.js lines 93-103). -/
def normalizeAIData (topic : String) (data : ParsedAI) : LearnResult :=
  { success := true
    topic := topic
    guide :=
      { title := jsOrStr data.title ("Learning Guide: " ++ topic)
        explanation := jsOrStr data.explanation (generateDefaultExplanation topic)
        tasks := jsOrTasks data.tasks (generateDefaultTasks topic) }
    source := "ai_generated"
    message := "AI-generated learning guide ready!" }

/-- generateLearningWithAI (src/server.js lines 63-114).  The external call is
    abstracted by aiOutcome: none when the call or the JSON parse threw (every
    such exception is caught and degrades to the enhanced fallback), some data
    when a JSON object was parsed. -/
def generateLearningWithAI (aiAvailable : Bool) (aiOutcome : Option ParsedAI)
    (topic : String) : LearnResult :=
  if aiAvailable then
    match aiOutcome with
    | some data => normalizeAIData topic data
    | none => generateEnhancedFallbackContent topic
  else generateEnhancedFallbackContent topic

/- ===== src/unnamed/part_000 : AI variant fallback ===== -/

/-- getFallbackResponse (src/unnamed/part_000 lines 115-151). -/
def getFallbackResponse (topic : String) : TopicGuide :=
  { title := capitalizeJs topic
    explanation := fallbackExplanation topic
    tasks :=
      [ { title := "Research and define"
          description := "Find 3 different definitions of \"" ++ topic ++ "\" from textbooks, websites, or videos"
          difficulty := "beginner"
          hint := "Wikipedia, Khan Academy, and educational YouTube channels are good starting points" }
      , { title := "Identify key concepts"
          description := "List the 5 most important concepts or formulas related to \"" ++ topic ++ "\""
          difficulty := "intermediate"
          hint := "Look for foundational principles that everything else builds upon" }
      , { title := "Real-world application"
          description := "Find 2-3 practical examples of how \"" ++ topic ++ "\" is used in industry or daily life"
          difficulty := "intermediate"
          hint := "Search for case studies or news articles about applications" }
      , { title := "Create learning resource"
          description := "Make a one-page cheat sheet explaining \"" ++ topic ++ "\" to a complete beginner"
          difficulty := "advanced"
          hint := "Use simple language, diagrams, and avoid jargon" } ]
    stream := "general"
    category := "concept"
    related_topics := ["Fundamentals", "Advanced Concepts", "Practical Applications"]
    source := "fallback"
    note := "AI service temporarily unavailable - using fallback content" }

/-- Inject the fallback object into the response shape of the AI variant
    (the catch branch of generateTopicWithAI returns it unchanged, so no
    generated_at / ai_model metadata is present on it). -/
def TopicGuide.toAIResponse (g : TopicGuide) : AIResponse :=
  { title := some g.title
    explanation := some g.explanation
    tasks := some g.tasks
    stream := some g.stream
    category := some g.category
    related_topics := some g.related_topics
    source := some g.source
    generated_at := none
    ai_model := none
    note := some g.note }

/-- The metadata stamping of generateTopicWithAI on successfully parsed data
    (src/unnamed/part_000 lines 99-104): only source, generated_at and
    ai_model are added; nothing is backfilled. -/
def addMetadata (nowIso : String) (data : ParsedAI) : AIResponse :=
  { title := data.title
    explanation := data.explanation
    tasks := data.tasks
    stream := data.stream
    category := data.category
    related_topics := data.related_topics
    source := some "gemini_ai"
    generated_at := some nowIso
    ai_model := some "gemini-pro"
    note := none }

/-- generateTopicWithAI (src/unnamed/part_000 lines 77-112): on any error of
    the external call or of JSON.parse (aiOutcome = none) it returns the
    fallback object; otherwise the parsed data with metadata. -/
def generateTopicWithAI (topic : String) (aiOutcome : Option ParsedAI)
    (nowIso : String) : AIResponse :=
  match aiOutcome with
  | some data => addMetadata nowIso data
  | none => (getFallbackResponse topic).toAIResponse

/- ===== AI response cleanup ===== -/

/-- The three-backtick fence marker as a character list. -/
def ticks : List Char := ['\x60', '\x60', '\x60']

/-- Number of leading JavaScript-whitespace characters. -/
def leadingWsCount (cs : List Char) : Nat := (cs.takeWhile jsWs).length

/-- Backtracking part of matching the regex \s*``` at the current position:
    try the fence after k whitespace characters, then after fewer. -/
def fenceFrom (cs : List Char) : Nat → Option (List Char)
  | 0 => if ticks.isPrefixOf cs then some (cs.drop 3) else none
  | k + 1 =>
    if ticks.isPrefixOf (cs.drop (k + 1)) then some (cs.drop (k + 1 + 3))
    else fenceFrom cs k

/-- Match the regex \s*``` anchored at the current position (greedy \s*,
    backtracking until the three backticks fit); returns the remainder after
    the match. -/
def wsFenceAt (cs : List Char) : Option (List Char) :=
  fenceFrom cs (leadingWsCount cs)

/-- someText.replace(/\s*```/, ""): delete the leftmost match of \s*```. -/
def replaceWsFence : List Char → List Char
  | [] => []
  | c :: t =>
    match wsFenceAt (c :: t) with
    | some rest => rest
    | none => c :: replaceWsFence t

/-- someText.replace(/lit\s*/, "") for a literal pattern lit: delete the
    leftmost occurrence of lit together with the whitespace following it. -/
def replaceLitThenWs (lit : List Char) : List Char → List Char
  | [] => []
  | c :: t =>
    if lit.isPrefixOf (c :: t) then ((c :: t).drop lit.length).dropWhile jsWs
    else c :: replaceLitThenWs lit t

/-- The response cleanup of generateTopicWithAI (src/unnamed/part_000
    lines 88-94): trim, then strip a leading ```json or ``` fence and the
    first closing fence.  No brace extraction happens in this variant. -/
def cleanAIText (text : String) : String :=
  let jsonText := jsTrim text
  if startsWithJs jsonText "\x60\x60\x60json" then
    String.mk (replaceWsFence (replaceLitThenWs ("\x60\x60\x60json".data) jsonText.data))
  else if startsWithJs jsonText "\x60\x60\x60" then
    String.mk (replaceWsFence (replaceLitThenWs ("\x60\x60\x60".data) jsonText.data))
  else jsonText

/-- Longest prefix of the list that ends with a right brace (the last right
    brace of the list), if any. -/
def upToLastRBrace : List Char → Option (List Char)
  | [] => none
  | c :: t =>
    match upToLastRBrace t with
    | some r => some (c :: r)
    | none => if c = '\x7d' then some [c] else none

/-- The greedy regex match jsonText.match(/\{[\s\S]*\}/) of
    generateLearningWithAI (src/server.js line 85): the match starts at the
    first left brace followed by some right brace and extends to the last
    right brace of the text. -/
def braceMatch : List Char → Option (List Char)
  | [] => none
  | c :: t =>
    if c = '\x7b' then
      match upToLastRBrace t with
      | some r => some (c :: r)
      | none => braceMatch t
    else braceMatch t

/-- The JSON extraction of generateLearningWithAI (src/server.js lines 84-88):
    if the greedy brace regex matches, only the matched substring is parsed;
    otherwise the whole text is parsed.  No fence stripping happens in this
    variant. -/
def extractJsonText (text : String) : String :=
  match braceMatch text.data with
  | some m => String.mk m
  | none => text

/- ===== Rate limiter ===== -/

/-- The while-loop eviction of expired entries from the front of
    requestHistory (both variants): shift while the head is older than
    now minus the window. -/
def evictOld (window now : Nat) : List Nat → List Nat
  | [] => []
  | h :: t => if h < now - window then evictOld window now t else h :: t

/-- Outcome of one rate-limit check together with the mutated history. -/
inductive RateResult where
  | admitted (newHist : List Nat) : RateResult
  | rejected (waitTime : Nat) (newHist : List Nat) : RateResult
deriving DecidableEq

/-- The history after the call, for either outcome. -/
def RateResult.newHist : RateResult → List Nat
  | .admitted h => h
  | .rejected _ h => h

/-- checkRateLimit (src/server.js lines 813-828 and src/unnamed/part_000
    lines 158-175; both have the same logic, only the constants differ):
    evict expired entries, then reject with
    Math.ceil((oldest + window - now) / 1000) when the remaining count is at
    or above the limit, else append the current timestamp. -/
def checkRateLimit (limit window now : Nat) (hist : List Nat) : RateResult :=
  let h := evictOld window now hist
  if limit ≤ h.length then
    .rejected ((h.headD 0 + window - now + 999) / 1000) h
  else
    .admitted (h ++ [now])

/-- RATE_LIMIT of src/server.js. -/
def RATE_LIMIT_learn : Nat := 30

/-- WINDOW_MS of src/server.js. -/
def WINDOW_MS : Nat := 60000

/-- RATE_LIMIT of src/unnamed/part_000. -/
def RATE_LIMIT_topic : Nat := 60

/-- TIME_WINDOW of src/unnamed/part_000. -/
def TIME_WINDOW : Nat := 60000

/-- The message of the error thrown by checkRateLimit in src/server.js. -/
def rateMsgLearn (w : Nat) : String :=
  "Rate limit: 30 requests/minute. Wait " ++ toString w ++ " seconds."

/-- The message of the error thrown by checkRateLimit in src/unnamed/part_000. -/
def rateMsgTopic (w : Nat) : String :=
  "Rate limit exceeded. Please wait " ++ toString w ++ " seconds. Free tier: 60 requests/minute."

/- ===== HTTP handlers ===== -/

/-- The JSON payload of GET /api/learn responses (src/server.js); absent
    fields are none. -/
structure LearnPayload where
  error : Option String := none
  exampleText : Option String := none
  message : Option String := none
  result : Option LearnResult := none
  rate_current : Option Nat := none
  rate_limit : Option Nat := none
  rate_remaining : Option Nat := none
  ai_enabled : Option Bool := none
  timestamp : Option String := none
  limit : Option Nat := none
  fallback : Option Guide := none
deriving DecidableEq

/-- GET /api/learn (src/server.js lines 831-901) as a pure function of the
    query parameter, the AI configuration, the abstract outcome of the AI
    call, the clock and the rate history.  Returns status code, payload and
    the mutated history. -/
def learnHandler (aiAvailable : Bool) (aiOutcome : Option ParsedAI)
    (nowIso : String) (now : Nat) (hist : List Nat) (topicQ : Option String) :
    (Nat × LearnPayload) × List Nat :=
  match topicQ with
  | none =>
    ((400, { error := some "Please enter a topic to learn"
             exampleText := some "Try: \"python programming\", \"database design\", \"machine learning\"" }), hist)
  | some topic =>
    if topic = "" ∨ (jsTrim topic).length < 2 then
      ((400, { error := some "Please enter a topic to learn"
               exampleText := some "Try: \"python programming\", \"database design\", \"machine learning\"" }), hist)
    else
      let cleanTopic := jsTrim topic
      match checkRateLimit RATE_LIMIT_learn WINDOW_MS now hist with
      | .rejected w h =>
        ((429, { error := some "Rate limit exceeded"
                 message := some (rateMsgLearn w)
                 limit := some RATE_LIMIT_learn
                 fallback := some (generateEnhancedFallbackContent topic).guide }), h)
      | .admitted h =>
        let result := generateLearningWithAI aiAvailable aiOutcome cleanTopic
        ((200, { result := some result
                 rate_current := some h.length
                 rate_limit := some RATE_LIMIT_learn
                 rate_remaining := some (RATE_LIMIT_learn - h.length)
                 ai_enabled := some aiAvailable
                 timestamp := some nowIso }), h)

/-- The JSON payload of GET /api/topic responses (src/unnamed/part_000);
    absent fields are none.  The fallback field of the 503 payload is the
    literal string of the source, not a guide. -/
structure TopicPayload where
  error : Option String := none
  example_topics : Option (List String) := none
  limit : Option String := none
  upgrade : Option String := none
  setup_guide : Option String := none
  get_key : Option String := none
  fallback : Option String := none
  response : Option AIResponse := none
  rate_remaining : Option Nat := none
deriving DecidableEq

/-- GET /api/topic (src/unnamed/part_000 lines 178-254) as a pure function.
    Returns status code, payload and the mutated history. -/
def topicHandler (modelConfigured : Bool) (aiOutcome : Option ParsedAI)
    (nowIso : String) (now : Nat) (hist : List Nat) (q : Option String) :
    (Nat × TopicPayload) × List Nat :=
  match q with
  | none =>
    ((400, { error := some "Please provide a topic to learn. Example: /api/topic?q=python+functions"
             example_topics := some ["machine learning basics", "quantum physics introduction", "how to invest in stocks", "French revolution causes", "Python data structures"] }), hist)
  | some qs =>
    if qs = "" ∨ jsTrim qs = "" then
      ((400, { error := some "Please provide a topic to learn. Example: /api/topic?q=python+functions"
               example_topics := some ["machine learning basics", "quantum physics introduction", "how to invest in stocks", "French revolution causes", "Python data structures"] }), hist)
    else
      let topic := jsTrim qs
      match checkRateLimit RATE_LIMIT_topic TIME_WINDOW now hist with
      | .rejected w h =>
        ((429, { error := some (rateMsgTopic w)
                 limit := some "60 requests per minute"
                 upgrade := some "For higher limits, upgrade at https://makersuite.google.com" }), h)
      | .admitted h =>
        if modelConfigured then
          let aiResponse := generateTopicWithAI topic aiOutcome nowIso
          ((200, { response := some aiResponse
                   rate_remaining := some (RATE_LIMIT_topic - h.length) }), h)
        else
          ((503, { error := some "AI service not configured"
                   setup_guide := some "Add your Gemini API key to .env file: GEMINI_API_KEY=your_key_here"
                   get_key := some "Get free API key: https://makersuite.google.com/app/apikey"
                   fallback := some "Using fallback content instead" }), h)

/- ===== Spec-level predicates (from the wording of the claims) ===== -/

/-- A difficulty label admitted by the specification. -/
def DiffOk (d : String) : Prop :=
  d = "beginner" ∨ d = "intermediate" ∨ d = "advanced"

/-- A task whose title, description and hint are non-empty and whose
    difficulty label is admitted. -/
def TaskOk (t : Task) : Prop :=
  t.title ≠ "" ∧ t.description ≠ "" ∧ t.hint ≠ "" ∧ DiffOk t.difficulty

/-- The guide shape demanded by claim C1: non-empty title and explanation,
    3 to 4 well-formed tasks. -/
def GuideOk (g : Guide) : Prop :=
  g.title ≠ "" ∧ g.explanation ≠ "" ∧
    3 ≤ g.tasks.length ∧ g.tasks.length ≤ 4 ∧ ∀ t ∈ g.tasks, TaskOk t

/-- The same shape for the fallback object of the AI variant. -/
def TopicGuideOk (g : TopicGuide) : Prop :=
  g.title ≠ "" ∧ g.explanation ≠ "" ∧
    3 ≤ g.tasks.length ∧ g.tasks.length ≤ 4 ∧ ∀ t ∈ g.tasks, TaskOk t

instance : DecidablePred DiffOk := fun _ => by unfold DiffOk; infer_instance

instance : DecidablePred TaskOk := fun _ => by unfold TaskOk; infer_instance

instance : DecidablePred GuideOk := fun _ => by unfold GuideOk; infer_instance

instance : DecidablePred TopicGuideOk := fun _ => by unfold TopicGuideOk; infer_instance



/- ===== Helper lemmas: strings ===== -/

theorem data_append (a b : String) : (a ++ b).data = a.data ++ b.data := rfl

theorem ne_empty_of_data_ne_nil {s : String} (h : s.data ≠ []) : s ≠ "" := by
  intro he
  exact h (by rw [he])

theorem data_ne_nil {s : String} (h : s ≠ "") : s.data ≠ [] := by
  intro hd
  apply h
  cases s with
  | mk l =>
    have hl : l = [] := hd
    rw [hl]

theorem data_append_ne_nil (a b : String) (h : a.data ≠ []) : (a ++ b).data ≠ [] := by
  rw [data_append]
  intro hc
  exact h (List.append_eq_nil.mp hc).1

theorem append_ne_empty_left (a b : String) (h : a.data ≠ []) : a ++ b ≠ "" :=
  ne_empty_of_data_ne_nil (data_append_ne_nil a b h)

theorem capitalizeJs_ne_empty {t : String} (h : t ≠ "") : capitalizeJs t ≠ "" := by
  have hd := data_ne_nil h
  unfold capitalizeJs
  cases ht : t.data with
  | nil => exact absurd ht hd
  | cons c cs =>
    apply ne_empty_of_data_ne_nil
    simp

theorem generateDefaultExplanation_ne_empty (topic : String) :
    generateDefaultExplanation topic ≠ "" := by
  unfold generateDefaultExplanation
  apply ne_empty_of_data_ne_nil
  repeat apply data_append_ne_nil
  decide

theorem fallbackExplanation_ne_empty (topic : String) :
    fallbackExplanation topic ≠ "" := by
  unfold fallbackExplanation
  apply ne_empty_of_data_ne_nil
  repeat apply data_append_ne_nil
  decide

/- ===== Helper lemmas: well-formedness of the generated guides ===== -/

theorem generateDefaultTasks_ok (topic : String) :
    ∀ t ∈ generateDefaultTasks topic, TaskOk t := by
  intro t ht
  simp only [generateDefaultTasks, List.mem_cons, List.not_mem_nil, or_false] at ht
  rcases ht with rfl | rfl | rfl <;> unfold TaskOk <;> dsimp only <;> refine ⟨?_, ?_, ?_, ?_⟩
  all_goals
    first
      | decide
      | (apply ne_empty_of_data_ne_nil
         repeat apply data_append_ne_nil
         decide)

theorem guideOk_generic (topic : String) :
    GuideOk { title := "Comprehensive Guide to " ++ capitalizeJs topic,
              explanation := generateDefaultExplanation topic,
              tasks := generateDefaultTasks topic } := by
  refine ⟨append_ne_empty_left _ _ (by decide),
    generateDefaultExplanation_ne_empty topic, ?_, ?_, generateDefaultTasks_ok topic⟩
  · simp [generateDefaultTasks]
  · simp [generateDefaultTasks]

theorem guideOk_python : GuideOk pythonGuide := by decide

theorem guideOk_database : GuideOk databaseGuide := by decide

theorem findEnhanced_cases (lt : String) :
    findEnhanced enhancedTopics lt = none ∨
    findEnhanced enhancedTopics lt = some ("python", pythonGuide) ∨
    findEnhanced enhancedTopics lt = some ("database", databaseGuide) := by
  simp only [enhancedTopics, findEnhanced]
  by_cases h1 : jsIncludes lt "python" = true
  · simp [h1]
  · rw [if_neg h1]
    by_cases h2 : jsIncludes lt "database" = true
    · simp [h2]
    · simp [h2]

theorem gen_guideOk (topic : String) :
    GuideOk (generateEnhancedFallbackContent topic).guide := by
  rcases findEnhanced_cases (toLowerJs topic) with h | h | h <;>
    simp only [generateEnhancedFallbackContent, h]
  · exact guideOk_generic topic
  · exact guideOk_python
  · exact guideOk_database

theorem fallbackResponse_ok {t : String} (h : t ≠ "") :
    TopicGuideOk (getFallbackResponse t) := by
  refine ⟨capitalizeJs_ne_empty h, fallbackExplanation_ne_empty t,
    by simp [getFallbackResponse], by simp [getFallbackResponse], ?_⟩
  intro task htask
  simp only [getFallbackResponse, List.mem_cons, List.not_mem_nil, or_false] at htask
  rcases htask with rfl | rfl | rfl | rfl <;> unfold TaskOk <;> dsimp only <;>
    refine ⟨?_, ?_, ?_, ?_⟩
  all_goals
    first
      | decide
      | (apply ne_empty_of_data_ne_nil
         repeat apply data_append_ne_nil
         decide)

/- ===== Claim C1 ===== -/

/-- C1, corrected.  The stateless fallback generator
    (generateEnhancedFallbackContent) is total and, for every topic string,
    returns a guide with non-empty title and explanation and 3 to 4
    well-formed tasks (each task with non-empty title, description and hint
    and a difficulty among beginner, intermediate, advanced).  The
    AI-variant fallback (getFallbackResponse) is total as well, but its
    title is the JavaScript capitalization of the topic, which is empty when
    the topic is the empty string; the stated shape therefore holds for it
    on every non-empty topic. -/
theorem C1_fallback_generator_wellformed :
    (∀ topic : String, GuideOk (generateEnhancedFallbackContent topic).guide) ∧
    (∀ topic : String, topic ≠ "" → TopicGuideOk (getFallbackResponse topic)) :=
  ⟨gen_guideOk, fun _ h => fallbackResponse_ok h⟩

/-- C1 witness: the theorem applied to the concrete topic "chemistry". -/
theorem C1_witness :
    ("chemistry" : String) ≠ "" ∧ TopicGuideOk (getFallbackResponse "chemistry") :=
  ⟨by decide, C1_fallback_generator_wellformed.2 "chemistry" (by decide)⟩

/-- C1 counterexample: on the empty topic string the AI-variant fallback
    generator returns a guide whose title is empty, so the claimed non-empty
    title fails when read over every topic string. -/
theorem C1_counterexample :
    (getFallbackResponse "").title = "" ∧ ¬ TopicGuideOk (getFallbackResponse "") := by
  constructor
  · rfl
  · decide

/- ===== Claim C2 ===== -/

/-- C2, confirmed.  Both fallback generators are embedded as pure functions
    of the topic alone, because the source computes their guides from the
    topic string only: no call to Date.now, new Date or Math.random occurs
    inside generateEnhancedFallbackContent or getFallbackResponse (clock
    reads happen only in the rate limiter and in the response envelopes of
    the handlers, outside the guide).  Two runs on the same topic therefore
    produce identical output, which is the two-run equality stated by the
    claim. -/
theorem C2_fallback_deterministic :
    ∀ topic : String,
      generateEnhancedFallbackContent topic = generateEnhancedFallbackContent topic ∧
      getFallbackResponse topic = getFallbackResponse topic :=
  fun _ => ⟨rfl, rfl⟩

/- ===== Claim C3 ===== -/

/-- C3, confirmed.  If the lower-cased topic contains the key "python", the
    stateless fallback generator returns the pre-authored python entry; the
    pre-authored database entry is returned exactly when "python" does not
    match but "database" does, so the first matching key in table iteration
    order wins; when no key matches the generic synthesized guide is
    returned.  In particular, generate("learning database systems") returns
    the pre-authored database entry verbatim. -/
theorem C3_substring_precedence :
    (∀ topic : String,
      (jsIncludes (toLowerJs topic) "python" = true →
        generateEnhancedFallbackContent topic =
          { success := true, topic := topic, guide := pythonGuide,
            source := "enhanced_local_detailed",
            message := "Detailed learning guide from enhanced local database" }) ∧
      (jsIncludes (toLowerJs topic) "python" = false →
       jsIncludes (toLowerJs topic) "database" = true →
        generateEnhancedFallbackContent topic =
          { success := true, topic := topic, guide := databaseGuide,
            source := "enhanced_local_detailed",
            message := "Detailed learning guide from enhanced local database" }) ∧
      (jsIncludes (toLowerJs topic) "python" = false →
       jsIncludes (toLowerJs topic) "database" = false →
        generateEnhancedFallbackContent topic =
          { success := true, topic := topic,
            guide := { title := "Comprehensive Guide to " ++ capitalizeJs topic,
                       explanation := generateDefaultExplanation topic,
                       tasks := generateDefaultTasks topic },
            source := "generated_detailed",
            message := "Generated detailed learning guide" })) ∧
    generateEnhancedFallbackContent "learning database systems" =
      { success := true, topic := "learning database systems", guide := databaseGuide,
        source := "enhanced_local_detailed",
        message := "Detailed learning guide from enhanced local database" } := by
  constructor
  · intro topic
    refine ⟨?_, ?_, ?_⟩
    · intro h1
      simp [generateEnhancedFallbackContent, enhancedTopics, findEnhanced, h1]
    · intro h1 h2
      simp [generateEnhancedFallbackContent, enhancedTopics, findEnhanced, h1, h2]
    · intro h1 h2
      simp [generateEnhancedFallbackContent, enhancedTopics, findEnhanced, h1, h2]
  · rfl

/-- C3 witness: a topic containing both table keys is resolved to the python
    entry, the first key in iteration order; the hypotheses of the theorem
    are discharged by computation. -/
theorem C3_witness :
    jsIncludes (toLowerJs "python database") "python" = true ∧
    generateEnhancedFallbackContent "python database" =
      { success := true, topic := "python database", guide := pythonGuide,
        source := "enhanced_local_detailed",
        message := "Detailed learning guide from enhanced local database" } :=
  ⟨by decide, (C3_substring_precedence.1 "python database").1 (by decide)⟩

/- ===== Helper lemmas: eviction ===== -/

theorem mem_evictOld {window now : Nat} {l : List Nat} {x : Nat}
    (h : x ∈ evictOld window now l) : x ∈ l := by
  induction l with
  | nil => simp [evictOld] at h
  | cons a t ih =>
    by_cases ha : a < now - window
    · simp only [evictOld, if_pos ha] at h
      exact List.mem_cons_of_mem _ (ih h)
    · simpa [evictOld, ha] using h

theorem sorted_evictOld {window now : Nat} {l : List Nat}
    (h : List.Sorted (· ≤ ·) l) : List.Sorted (· ≤ ·) (evictOld window now l) := by
  induction l with
  | nil => simp [evictOld]
  | cons a t ih =>
    rw [List.sorted_cons] at h
    by_cases ha : a < now - window
    · simp only [evictOld, if_pos ha]
      exact ih h.2
    · simp only [evictOld, if_neg ha]
      exact List.sorted_cons.mpr h

theorem lb_evictOld {window now : Nat} {l : List Nat}
    (hs : List.Sorted (· ≤ ·) l) {x : Nat} (hx : x ∈ evictOld window now l) :
    now - window ≤ x := by
  induction l with
  | nil => simp [evictOld] at hx
  | cons a t ih =>
    rw [List.sorted_cons] at hs
    by_cases ha : a < now - window
    · simp only [evictOld, if_pos ha] at hx
      exact ih hs.2 hx
    · simp only [evictOld, if_neg ha] at hx
      rcases List.mem_cons.mp hx with rfl | hx
      · omega
      · exact le_trans (by omega) (hs.1 x hx)

theorem evictOld_keeps_inwindow {window now : Nat} {l : List Nat} {x : Nat}
    (hx : x ∈ l) (hin : ¬ x < now - window) : x ∈ evictOld window now l := by
  induction l with
  | nil => simp at hx
  | cons a t ih =>
    by_cases ha : a < now - window
    · simp only [evictOld, if_pos ha]
      rcases List.mem_cons.mp hx with rfl | h
      · exact absurd ha hin
      · exact ih h
    · simpa [evictOld, ha] using hx

theorem evictOld_evictOld {window now nowLater : Nat} (hm : now ≤ nowLater)
    (l : List Nat) :
    evictOld window nowLater (evictOld window now l) = evictOld window nowLater l := by
  induction l with
  | nil => simp [evictOld]
  | cons a t ih =>
    by_cases ha : a < now - window
    · have ha2 : a < nowLater - window := by omega
      simp only [evictOld, if_pos ha, if_pos ha2]
      exact ih
    · simp only [evictOld, if_neg ha]

/- ===== Claim C4 ===== -/

/-- C4, confirmed.  Every rate-limit check first evicts expired entries from
    the front of the history; when the remaining count reaches the
    configured maximum it rejects, and the returned wait time is exactly the
    ceiling of (oldest + window - now) / 1000 (stated as the least natural w
    with oldest + window - now ≤ 1000 * w); otherwise it appends the current
    timestamp and admits.  With max_requests = 3 and window_ms = 1000, three
    admits inside the window succeed, a fourth is rejected, and an admit
    after the window elapses succeeds again. -/
theorem C4_ratelimit_check :
    (∀ limit window now : Nat, ∀ hist : List Nat, 0 < limit →
      (∀ w h, checkRateLimit limit window now hist = .rejected w h →
        h = evictOld window now hist ∧ limit ≤ h.length ∧
        ∃ oldest rest, h = oldest :: rest ∧
          oldest + window - now ≤ 1000 * w ∧
          ∀ m : Nat, oldest + window - now ≤ 1000 * m → w ≤ m) ∧
      (∀ h, checkRateLimit limit window now hist = .admitted h →
        h = evictOld window now hist ++ [now] ∧
        (evictOld window now hist).length < limit)) ∧
    (checkRateLimit 3 1000 0 [] = .admitted [0] ∧
     checkRateLimit 3 1000 100 [0] = .admitted [0, 100] ∧
     checkRateLimit 3 1000 200 [0, 100] = .admitted [0, 100, 200] ∧
     checkRateLimit 3 1000 300 [0, 100, 200] = .rejected 1 [0, 100, 200] ∧
     checkRateLimit 3 1000 1301 [0, 100, 200] = .admitted [1301]) := by
  constructor
  · intro limit window now hist hlim
    constructor
    · intro w h heq
      unfold checkRateLimit at heq
      dsimp only at heq
      by_cases hc : limit ≤ (evictOld window now hist).length
      · rw [if_pos hc] at heq
        injection heq with hw hh
        subst hw
        subst hh
        refine ⟨rfl, hc, ?_⟩
        cases he : evictOld window now hist with
        | nil =>
          rw [he] at hc
          simp at hc
          omega
        | cons oldest rest =>
          have hdm := Nat.div_add_mod (oldest + window - now + 999) 1000
          have hmod : (oldest + window - now + 999) % 1000 < 1000 :=
            Nat.mod_lt _ (by norm_num)
          refine ⟨oldest, rest, rfl, ?_, ?_⟩
          · simp only [List.headD_cons]
            omega
          · intro m hm
            simp only [List.headD_cons]
            omega
      · rw [if_neg hc] at heq
        exact absurd heq (by simp)
    · intro h heq
      unfold checkRateLimit at heq
      dsimp only at heq
      by_cases hc : limit ≤ (evictOld window now hist).length
      · rw [if_pos hc] at heq
        exact absurd heq (by simp)
      · rw [if_neg hc] at heq
        injection heq with hh
        exact ⟨hh.symm, by omega⟩
  · refine ⟨by decide, by decide, by decide, by decide, by decide⟩

/-- C4 witness: the general part of the theorem applied to the concrete
    rejected check at limit 3, window 1000, time 300 and history
    [0, 100, 200]. -/
theorem C4_witness :
    ([0, 100, 200] : List Nat) = evictOld 1000 300 [0, 100, 200] ∧
    3 ≤ ([0, 100, 200] : List Nat).length ∧
    ∃ oldest rest, ([0, 100, 200] : List Nat) = oldest :: rest ∧
      oldest + 1000 - 300 ≤ 1000 * 1 ∧
      ∀ m : Nat, oldest + 1000 - 300 ≤ 1000 * m → 1 ≤ m :=
  ((C4_ratelimit_check.1 3 1000 300 [0, 100, 200] (by decide)).1 1 [0, 100, 200] (by decide))

/- ===== Claim C5 ===== -/

/-- C5, confirmed.  Assuming the history is oldest-first and all of its
    timestamps are at or before the current time (which is what a monotone
    clock guarantees for a history built by earlier calls), the history left
    behind by a completed check, admitting or rejecting, is still ordered
    oldest-first and contains only timestamps from the last window.  With
    the default configuration the window is the WINDOW_MS = TIME_WINDOW =
    60000 milliseconds of the sources. -/
theorem C5_history_invariant :
    ∀ limit window now : Nat, ∀ hist : List Nat,
      List.Sorted (· ≤ ·) hist → (∀ x ∈ hist, x ≤ now) →
      List.Sorted (· ≤ ·) ((checkRateLimit limit window now hist).newHist) ∧
      ∀ x ∈ (checkRateLimit limit window now hist).newHist,
        now - window ≤ x ∧ x ≤ now := by
  intro limit window now hist hs hb
  unfold checkRateLimit
  dsimp only
  split_ifs with hc
  · simp only [RateResult.newHist]
    refine ⟨sorted_evictOld hs, ?_⟩
    intro x hx
    exact ⟨lb_evictOld hs hx, hb x (mem_evictOld hx)⟩
  · simp only [RateResult.newHist]
    constructor
    · rw [List.Sorted, List.pairwise_append]
      refine ⟨sorted_evictOld hs, by simp, ?_⟩
      intro a ha b hbmem
      simp only [List.mem_singleton] at hbmem
      subst hbmem
      exact hb a (mem_evictOld ha)
    · intro x hx
      rcases List.mem_append.mp hx with hx | hx
      · exact ⟨lb_evictOld hs hx, hb x (mem_evictOld hx)⟩
      · simp only [List.mem_singleton] at hx
        subst hx
        exact ⟨Nat.sub_le _ _, le_refl _⟩

/-- C5 witness: the invariant instantiated on a concrete admitted check. -/
theorem C5_witness :
    List.Sorted (· ≤ ·) ((checkRateLimit 3 1000 200 [0, 100]).newHist) ∧
    ∀ x ∈ (checkRateLimit 3 1000 200 [0, 100]).newHist,
      200 - 1000 ≤ x ∧ x ≤ 200 :=
  C5_history_invariant 3 1000 200 [0, 100] (by decide) (by decide)

/- ===== Claim C10 ===== -/

/-- C10, confirmed.  A rejected rate-limit check never appends the rejecting
    timestamp: its post-call history consists only of entries of the
    previous history, every in-window entry of the previous history is
    retained, and any later check (at a time at or after the rejected one)
    computes exactly the same result on the post-rejection history as it
    would have on the untouched history, so a rejected request consumes no
    capacity and never lengthens the retry-after of subsequent callers. -/
theorem C10_rejection_consumes_nothing :
    ∀ limit window now : Nat, ∀ hist : List Nat, ∀ w : Nat, ∀ h : List Nat,
      checkRateLimit limit window now hist = .rejected w h →
      (∀ x ∈ h, x ∈ hist) ∧
      (∀ x ∈ hist, ¬ x < now - window → x ∈ h) ∧
      (∀ nowLater : Nat, now ≤ nowLater →
        checkRateLimit limit window nowLater h =
        checkRateLimit limit window nowLater hist) := by
  intro limit window now hist w h heq
  have hh : h = evictOld window now hist := by
    unfold checkRateLimit at heq
    dsimp only at heq
    by_cases hc : limit ≤ (evictOld window now hist).length
    · rw [if_pos hc] at heq
      injection heq with hw hh
      exact hh.symm
    · rw [if_neg hc] at heq
      exact absurd heq (by simp)
  subst hh
  refine ⟨fun x hx => mem_evictOld hx,
    fun x hx hin => evictOld_keeps_inwindow hx hin, ?_⟩
  intro nowLater hm
  unfold checkRateLimit
  rw [evictOld_evictOld hm]

/-- C10 witness: applied to the concrete rejected check at time 300 on
    [0, 100, 200] with limit 3 and window 1000. -/
theorem C10_witness :
    (∀ x ∈ ([0, 100, 200] : List Nat), x ∈ ([0, 100, 200] : List Nat)) ∧
    (∀ x ∈ ([0, 100, 200] : List Nat), ¬ x < 300 - 1000 →
      x ∈ ([0, 100, 200] : List Nat)) ∧
    (∀ nowLater : Nat, 300 ≤ nowLater →
      checkRateLimit 3 1000 nowLater [0, 100, 200] =
      checkRateLimit 3 1000 nowLater [0, 100, 200]) :=
  C10_rejection_consumes_nothing 3 1000 300 [0, 100, 200] 1 [0, 100, 200] (by decide)

/- ===== Helper lemmas: handlers ===== -/

theorem jsOrStr_ne_empty {v : Option String} {d : String} (hd : d ≠ "") :
    jsOrStr v d ≠ "" := by
  cases v with
  | none => simpa [jsOrStr] using hd
  | some s =>
    by_cases hs : s = ""
    · simp only [jsOrStr, if_pos hs]
      exact hd
    · simp only [jsOrStr, if_neg hs]
      exact hs

theorem glw_title_ne_empty (ai : Bool) (outcome : Option ParsedAI) (topic : String) :
    (generateLearningWithAI ai outcome topic).guide.title ≠ "" := by
  cases ai with
  | false => exact (gen_guideOk topic).1
  | true =>
    cases outcome with
    | none => exact (gen_guideOk topic).1
    | some data =>
      show jsOrStr data.title ("Learning Guide: " ++ topic) ≠ ""
      exact jsOrStr_ne_empty (append_ne_empty_left _ _ (by decide))

theorem learn_valid_cond {topic : String} (htl : 2 ≤ (jsTrim topic).length) :
    ¬ (topic = "" ∨ (jsTrim topic).length < 2) := by
  rintro (rfl | hlt)
  · revert htl
    decide
  · omega

theorem topic_valid_cond {q : String} (h : jsTrim q ≠ "") :
    ¬ (q = "" ∨ jsTrim q = "") := by
  rintro (rfl | he)
  · exact h (by decide)
  · exact h he

/- ===== Claim C7 ===== -/

/-- C7, corrected.  The stateless variant (generateLearningWithAI in
    src/server.js) backfills a missing title, explanation or tasks field of
    a successfully parsed AI response with the generator defaults, and its
    returned guide always has a non-empty title and explanation.  The AI
    variant (generateTopicWithAI in src/unnamed/part_000) performs no
    backfill: it returns the parsed fields unchanged, only stamping source,
    generated_at and ai_model metadata. -/
theorem C7_backfill :
    (∀ (topic : String) (data : ParsedAI),
      (data.title = none →
        (normalizeAIData topic data).guide.title = "Learning Guide: " ++ topic) ∧
      (data.explanation = none →
        (normalizeAIData topic data).guide.explanation = generateDefaultExplanation topic) ∧
      (data.tasks = none →
        (normalizeAIData topic data).guide.tasks = generateDefaultTasks topic) ∧
      (normalizeAIData topic data).guide.title ≠ "" ∧
      (normalizeAIData topic data).guide.explanation ≠ "") ∧
    (∀ (topic nowIso : String) (data : ParsedAI),
      (generateTopicWithAI topic (some data) nowIso).title = data.title ∧
      (generateTopicWithAI topic (some data) nowIso).explanation = data.explanation ∧
      (generateTopicWithAI topic (some data) nowIso).tasks = data.tasks) := by
  constructor
  · intro topic data
    refine ⟨?_, ?_, ?_, ?_, ?_⟩
    · intro h
      simp [normalizeAIData, jsOrStr, h]
    · intro h
      simp [normalizeAIData, jsOrStr, h]
    · intro h
      simp [normalizeAIData, jsOrTasks, h]
    · exact jsOrStr_ne_empty (append_ne_empty_left _ _ (by decide))
    · exact jsOrStr_ne_empty (generateDefaultExplanation_ne_empty topic)
  · intro topic nowIso data
    exact ⟨rfl, rfl, rfl⟩

/-- C7 witness: the theorem applied to a parsed response with all three
    fields missing, for the topic "python". -/
theorem C7_witness :
    (normalizeAIData "python" ⟨none, none, none, none, none, none⟩).guide.title =
      "Learning Guide: " ++ "python" ∧
    (generateTopicWithAI "python" (some ⟨none, none, none, none, none, none⟩) "t0").title =
      none :=
  ⟨(C7_backfill.1 "python" ⟨none, none, none, none, none, none⟩).1 rfl,
   (C7_backfill.2 "python" "t0" ⟨none, none, none, none, none, none⟩).1⟩

/-- C7 counterexample: in the AI variant, a successfully parsed response
    missing title and explanation is returned still missing them, so the
    claim that generate backfills every missing field fails there. -/
theorem C7_counterexample :
    (generateTopicWithAI "python" (some ⟨none, none, none, none, none, none⟩) "t0").title
        = none ∧
    (generateTopicWithAI "python" (some ⟨none, none, none, none, none, none⟩) "t0").explanation
        = none ∧
    (generateTopicWithAI "python" (some ⟨none, none, none, none, none, none⟩) "t0").tasks
        = none :=
  ⟨rfl, rfl, rfl⟩

/- ===== Claim C8 ===== -/

/-- C8, corrected.  In the stateless variant every rate-limited request gets
    a 429 payload carrying both the retry-after message and a well-formed
    fallback guide.  In the AI variant the 429 payload carries the
    retry-after message and an upgrade hint but no guide of any kind. -/
theorem C8_429_payloads :
    (∀ (ai : Bool) (outcome : Option ParsedAI) (nowIso : String) (now : Nat)
        (hist : List Nat) (topic : String) (w : Nat) (h : List Nat),
      2 ≤ (jsTrim topic).length →
      checkRateLimit RATE_LIMIT_learn WINDOW_MS now hist = .rejected w h →
      learnHandler ai outcome nowIso now hist (some topic) =
        ((429, { error := some "Rate limit exceeded"
                 message := some (rateMsgLearn w)
                 limit := some RATE_LIMIT_learn
                 fallback := some (generateEnhancedFallbackContent topic).guide }), h) ∧
      GuideOk (generateEnhancedFallbackContent topic).guide) ∧
    (∀ (cfg : Bool) (outcome : Option ParsedAI) (nowIso : String) (now : Nat)
        (hist : List Nat) (q : String) (w : Nat) (h : List Nat),
      jsTrim q ≠ "" →
      checkRateLimit RATE_LIMIT_topic TIME_WINDOW now hist = .rejected w h →
      topicHandler cfg outcome nowIso now hist (some q) =
        ((429, { error := some (rateMsgTopic w)
                 limit := some "60 requests per minute"
                 upgrade := some "For higher limits, upgrade at https://makersuite.google.com" }), h) ∧
      (topicHandler cfg outcome nowIso now hist (some q)).1.2.response = none ∧
      (topicHandler cfg outcome nowIso now hist (some q)).1.2.fallback = none) := by
  constructor
  · intro ai outcome nowIso now hist topic w h htl hrl
    have hcond := learn_valid_cond htl
    have heq : learnHandler ai outcome nowIso now hist (some topic) =
        ((429, { error := some "Rate limit exceeded"
                 message := some (rateMsgLearn w)
                 limit := some RATE_LIMIT_learn
                 fallback := some (generateEnhancedFallbackContent topic).guide }), h) := by
      simp only [learnHandler]
      rw [if_neg hcond]
      simp only [hrl]
    exact ⟨heq, gen_guideOk topic⟩
  · intro cfg outcome nowIso now hist q w h hq hrl
    have hcond := topic_valid_cond hq
    have heq : topicHandler cfg outcome nowIso now hist (some q) =
        ((429, { error := some (rateMsgTopic w)
                 limit := some "60 requests per minute"
                 upgrade := some "For higher limits, upgrade at https://makersuite.google.com" }), h) := by
      simp only [topicHandler]
      rw [if_neg hcond]
      simp only [hrl]
    refine ⟨heq, ?_, ?_⟩ <;> rw [heq]

/-- C8 witness: both parts of the theorem applied to concrete saturated
    histories (30 timestamps for the stateless variant, 60 for the AI
    variant, all at time 0, checked again at time 0). -/
theorem C8_witness :
    learnHandler false none "t0" 0 (List.replicate 30 0) (some "python") =
      ((429, { error := some "Rate limit exceeded"
               message := some (rateMsgLearn 60)
               limit := some RATE_LIMIT_learn
               fallback := some (generateEnhancedFallbackContent "python").guide }),
       List.replicate 30 0) ∧
    GuideOk (generateEnhancedFallbackContent "python").guide :=
  (C8_429_payloads.1 false none "t0" 0 (List.replicate 30 0) "python" 60
    (List.replicate 30 0) (by decide) (by decide))

/-- C8 counterexample: a rate-limited request of the AI variant receives a
    429 whose payload contains no fallback guide (neither an embedded
    response object nor even the fallback string field), refuting the claim
    that every 429 is paired with a usable fallback guide. -/
theorem C8_counterexample :
    (topicHandler true none "t0" 0 (List.replicate 60 0) (some "python")).1.1 = 429 ∧
    (topicHandler true none "t0" 0 (List.replicate 60 0) (some "python")).1.2.response = none ∧
    (topicHandler true none "t0" 0 (List.replicate 60 0) (some "python")).1.2.fallback = none := by
  refine ⟨?_, ?_, ?_⟩ <;> decide

/- ===== Claim C9 ===== -/

/-- C9, corrected.  Both endpoints return 400 with an error field when the
    query parameter is missing or blank (the stateless variant also returns
    400 for a one-character topic, because it requires a trimmed length of
    at least 2).  With a valid parameter, the stateless /api/learn endpoint
    returns 200 with a populated guide title whether or not the AI
    credential is configured, while the AI-variant /api/topic endpoint
    returns 200 only when the credential is configured and 503 when it is
    not. -/
theorem C9_status_mapping :
    (∀ (cfg : Bool) (outcome : Option ParsedAI) (nowIso : String) (now : Nat)
        (hist : List Nat),
      (topicHandler cfg outcome nowIso now hist none).1.1 = 400 ∧
      (topicHandler cfg outcome nowIso now hist none).1.2.error.isSome = true) ∧
    (∀ (cfg : Bool) (outcome : Option ParsedAI) (nowIso : String) (now : Nat)
        (hist : List Nat) (q : String), jsTrim q = "" →
      (topicHandler cfg outcome nowIso now hist (some q)).1.1 = 400 ∧
      (topicHandler cfg outcome nowIso now hist (some q)).1.2.error.isSome = true) ∧
    (∀ (ai : Bool) (outcome : Option ParsedAI) (nowIso : String) (now : Nat)
        (hist : List Nat),
      (learnHandler ai outcome nowIso now hist none).1.1 = 400 ∧
      (learnHandler ai outcome nowIso now hist none).1.2.error.isSome = true) ∧
    (∀ (ai : Bool) (outcome : Option ParsedAI) (nowIso : String) (now : Nat)
        (hist : List Nat) (topic : String), (jsTrim topic).length < 2 →
      (learnHandler ai outcome nowIso now hist (some topic)).1.1 = 400 ∧
      (learnHandler ai outcome nowIso now hist (some topic)).1.2.error.isSome = true) ∧
    (∀ (ai : Bool) (outcome : Option ParsedAI) (nowIso : String) (now : Nat)
        (hist : List Nat) (topic : String) (h : List Nat),
      2 ≤ (jsTrim topic).length →
      checkRateLimit RATE_LIMIT_learn WINDOW_MS now hist = .admitted h →
      (learnHandler ai outcome nowIso now hist (some topic)).1.1 = 200 ∧
      ∃ r, (learnHandler ai outcome nowIso now hist (some topic)).1.2.result = some r ∧
        r.guide.title ≠ "") ∧
    (∀ (outcome : Option ParsedAI) (nowIso : String) (now : Nat) (hist : List Nat)
        (q : String) (h : List Nat),
      jsTrim q ≠ "" →
      checkRateLimit RATE_LIMIT_topic TIME_WINDOW now hist = .admitted h →
      (topicHandler false outcome nowIso now hist (some q)).1.1 = 503) ∧
    (∀ (nowIso : String) (now : Nat) (hist : List Nat) (q : String) (h : List Nat),
      jsTrim q ≠ "" →
      checkRateLimit RATE_LIMIT_topic TIME_WINDOW now hist = .admitted h →
      (topicHandler true none nowIso now hist (some q)).1.1 = 200 ∧
      ∃ r, (topicHandler true none nowIso now hist (some q)).1.2.response = some r ∧
        r.title = some (capitalizeJs (jsTrim q)) ∧ capitalizeJs (jsTrim q) ≠ "") := by
  refine ⟨?_, ?_, ?_, ?_, ?_, ?_, ?_⟩
  · intro cfg outcome nowIso now hist
    exact ⟨rfl, rfl⟩
  · intro cfg outcome nowIso now hist q hq
    have hcond : q = "" ∨ jsTrim q = "" := Or.inr hq
    constructor <;>
      · simp only [topicHandler]
        rw [if_pos hcond]
        try rfl
  · intro ai outcome nowIso now hist
    exact ⟨rfl, rfl⟩
  · intro ai outcome nowIso now hist topic hlt
    have hcond : topic = "" ∨ (jsTrim topic).length < 2 := Or.inr hlt
    constructor <;>
      · simp only [learnHandler]
        rw [if_pos hcond]
        try rfl
  · intro ai outcome nowIso now hist topic h htl hrl
    have hcond := learn_valid_cond htl
    have heq : learnHandler ai outcome nowIso now hist (some topic) =
        ((200, { result := some (generateLearningWithAI ai outcome (jsTrim topic))
                 rate_current := some h.length
                 rate_limit := some RATE_LIMIT_learn
                 rate_remaining := some (RATE_LIMIT_learn - h.length)
                 ai_enabled := some ai
                 timestamp := some nowIso }), h) := by
      simp only [learnHandler]
      rw [if_neg hcond]
      simp only [hrl]
    rw [heq]
    exact ⟨rfl, generateLearningWithAI ai outcome (jsTrim topic), rfl,
      glw_title_ne_empty ai outcome (jsTrim topic)⟩
  · intro outcome nowIso now hist q h hq hrl
    have hcond := topic_valid_cond hq
    simp only [topicHandler]
    rw [if_neg hcond]
    simp only [hrl]
    rfl
  · intro nowIso now hist q h hq hrl
    have hcond := topic_valid_cond hq
    have heq : topicHandler true none nowIso now hist (some q) =
        ((200, { response := some (getFallbackResponse (jsTrim q)).toAIResponse
                 rate_remaining := some (RATE_LIMIT_topic - h.length) }), h) := by
      simp only [topicHandler]
      rw [if_neg hcond]
      simp only [hrl]
      rfl
    rw [heq]
    exact ⟨rfl, (getFallbackResponse (jsTrim q)).toAIResponse, rfl, rfl,
      capitalizeJs_ne_empty hq⟩

/-- C9 witness: the per-class mapping applied to concrete requests: a valid
    one-word topic on the AI endpoint with the credential configured yields
    200 with a populated title, and a blank parameter yields 400. -/
theorem C9_witness :
    ((topicHandler true none "t0" 0 [] (some "python")).1.1 = 200 ∧
      ∃ r, (topicHandler true none "t0" 0 [] (some "python")).1.2.response = some r ∧
        r.title = some (capitalizeJs (jsTrim "python")) ∧
        capitalizeJs (jsTrim "python") ≠ "") ∧
    ((topicHandler true none "t0" 0 [] (some "  ")).1.1 = 400 ∧
      (topicHandler true none "t0" 0 [] (some "  ")).1.2.error.isSome = true) :=
  ⟨(C9_status_mapping.2.2.2.2.2.2 "t0" 0 [] "python" [0] (by decide) (by decide)),
   (C9_status_mapping.2.1 true none "t0" 0 [] "  " (by decide))⟩

/-- C9 counterexample: with a valid query parameter and the AI credential
    not configured, the AI-variant endpoint returns 503, not the claimed
    200; and the stateless endpoint returns 400 for the non-blank
    one-character topic "x". -/
theorem C9_counterexample :
    (topicHandler false none "t0" 0 [] (some "python")).1.1 = 503 ∧
    (topicHandler false none "t0" 0 [] (some "python")).1.1 ≠ 200 ∧
    (learnHandler true none "t0" 0 [] (some "x")).1.1 = 400 := by
  refine ⟨?_, ?_, ?_⟩ <;> decide

/- ===== Helper lemmas: greedy brace extraction (src/server.js) ===== -/

theorem upToLastRBrace_none {l : List Char} (h : '\x7d' ∉ l) :
    upToLastRBrace l = none := by
  induction l with
  | nil => rfl
  | cons c t ih =>
    have hc : c ≠ '\x7d' := fun he => h (by rw [← he]; exact List.mem_cons_self c t)
    have ht : '\x7d' ∉ t := fun hm => h (List.mem_cons_of_mem _ hm)
    simp only [upToLastRBrace, ih ht, if_neg hc]

theorem upToLastRBrace_append_right {l r : List Char} (h : '\x7d' ∉ r) :
    upToLastRBrace (l ++ r) = upToLastRBrace l := by
  induction l with
  | nil => simpa using upToLastRBrace_none h
  | cons c t ih =>
    rw [List.cons_append]
    show (match upToLastRBrace (t ++ r) with
          | some rr => some (c :: rr)
          | none => if c = '\x7d' then some [c] else none) =
        (match upToLastRBrace t with
          | some rr => some (c :: rr)
          | none => if c = '\x7d' then some [c] else none)
    rw [ih]

theorem upToLastRBrace_ends {body : List Char} (h : body.getLast? = some '\x7d') :
    upToLastRBrace body = some body := by
  induction body with
  | nil => simp at h
  | cons c t ih =>
    cases t with
    | nil =>
      simp only [List.getLast?_singleton, Option.some.injEq] at h
      subst h
      decide
    | cons d u =>
      have ht : (d :: u).getLast? = some '\x7d' := by
        rwa [List.getLast?_cons_cons] at h
      show (match upToLastRBrace (d :: u) with
            | some rr => some (c :: rr)
            | none => if c = '\x7d' then some [c] else none) = some (c :: d :: u)
      rw [ih ht]

theorem braceMatch_skip {pre : List Char} (rest : List Char) (h : '\x7b' ∉ pre) :
    braceMatch (pre ++ rest) = braceMatch rest := by
  induction pre with
  | nil => rfl
  | cons c t ih =>
    have hc : c ≠ '\x7b' := fun he => h (by rw [← he]; exact List.mem_cons_self c t)
    have ht : '\x7b' ∉ t := fun hm => h (List.mem_cons_of_mem _ hm)
    rw [List.cons_append]
    show (if c = '\x7b' then
            match upToLastRBrace (t ++ rest) with
            | some r => some (c :: r)
            | none => braceMatch (t ++ rest)
          else braceMatch (t ++ rest)) = braceMatch rest
    rw [if_neg hc]
    exact ih ht

theorem extractJsonText_extracts (pre body post : List Char)
    (hpre : '\x7b' ∉ pre) (hpost : '\x7d' ∉ post)
    (hbody : body.getLast? = some '\x7d') :
    extractJsonText (String.mk (pre ++ '\x7b' :: (body ++ post))) =
      String.mk ('\x7b' :: body) := by
  have h1 : braceMatch (pre ++ '\x7b' :: (body ++ post)) = some ('\x7b' :: body) := by
    rw [braceMatch_skip _ hpre]
    show (if '\x7b' = '\x7b' then
            match upToLastRBrace (body ++ post) with
            | some r => some ('\x7b' :: r)
            | none => braceMatch (body ++ post)
          else braceMatch (body ++ post)) = some ('\x7b' :: body)
    rw [if_pos rfl, upToLastRBrace_append_right hpost, upToLastRBrace_ends hbody]
  unfold extractJsonText
  dsimp only
  rw [h1]

/- ===== Helper lemmas: fence stripping (src/unnamed/part_000) ===== -/

theorem ticksPrefix_head {l : List Char} (h : ticks.isPrefixOf l = true) :
    l.head? = some '\x60' := by
  cases l with
  | nil => simp [ticks, List.isPrefixOf] at h
  | cons a t =>
    have ha : '\x60' = a := by
      simp only [ticks, List.isPrefixOf, Bool.and_eq_true, beq_iff_eq] at h
      exact h.1
    rw [← ha]
    rfl

theorem fenceFrom_none {cs : List Char} {k : Nat}
    (h : ∀ j, j ≤ k → (cs.drop j).head? ≠ some '\x60') :
    fenceFrom cs k = none := by
  induction k with
  | zero =>
    simp only [fenceFrom]
    rw [if_neg]
    intro hp
    exact h 0 (Nat.le_refl 0) (ticksPrefix_head hp)
  | succ k ih =>
    simp only [fenceFrom]
    rw [if_neg]
    · exact ih (fun j hj => h j (Nat.le_trans hj (Nat.le_succ k)))
    · intro hp
      exact h (k + 1) (Nat.le_refl _) (ticksPrefix_head hp)

theorem wsFenceAt_none {cs : List Char}
    (h : ∀ j, j ≤ leadingWsCount cs → (cs.drop j).head? ≠ some '\x60') :
    wsFenceAt cs = none :=
  fenceFrom_none h

theorem drop_head_ws : ∀ (cs : List Char) (j : Nat), j < leadingWsCount cs →
    ∀ x, (cs.drop j).head? = some x → jsWs x = true := by
  intro cs
  induction cs with
  | nil =>
    intro j h
    simp [leadingWsCount] at h
  | cons c t ih =>
    intro j h x hx
    by_cases hc : jsWs c = true
    · cases j with
      | zero =>
        have : c = x := by
          simpa using hx
        rw [← this]
        exact hc
      | succ j =>
        have hj : j < leadingWsCount t := by
          simp only [leadingWsCount, List.takeWhile, hc, List.length_cons] at h
          simp only [leadingWsCount]
          omega
        exact ih j hj x hx
    · simp [leadingWsCount, List.takeWhile, hc] at h

theorem drop_leadingWs (cs : List Char) :
    cs.drop (leadingWsCount cs) = cs.dropWhile jsWs := by
  induction cs with
  | nil => rfl
  | cons c t ih =>
    by_cases hc : jsWs c = true
    · have hcount : leadingWsCount (c :: t) = leadingWsCount t + 1 := by
        simp [leadingWsCount, List.takeWhile, hc]
      rw [hcount, List.drop_succ_cons, ih]
      simp [List.dropWhile, hc]
    · have hcount : leadingWsCount (c :: t) = 0 := by
        simp [leadingWsCount, List.takeWhile, hc]
      rw [hcount, List.drop_zero]
      simp [List.dropWhile, hc]

theorem dropWhile_ne_nil_of_mem {l : List Char} {x : Char} (hx : x ∈ l)
    (hnw : jsWs x = false) : l.dropWhile jsWs ≠ [] := by
  induction l with
  | nil => simp at hx
  | cons c t ih =>
    by_cases hc : jsWs c = true
    · simp only [List.dropWhile, hc]
      rcases List.mem_cons.mp hx with rfl | hm
      · rw [hc] at hnw
        cases hnw
      · exact ih hm
    · simp [List.dropWhile, hc]

theorem dropWhile_append_ne {l r : List Char} (h : l.dropWhile jsWs ≠ []) :
    (l ++ r).dropWhile jsWs = l.dropWhile jsWs ++ r := by
  induction l with
  | nil => exact absurd rfl h
  | cons c t ih =>
    by_cases hc : jsWs c = true
    · have ht : t.dropWhile jsWs ≠ [] := by
        intro hnil
        apply h
        simp [List.dropWhile, hc, hnil]
      rw [List.cons_append]
      simp only [List.dropWhile, hc]
      exact ih ht
    · rw [List.cons_append]
      simp [List.dropWhile, hc]

theorem dropWhile_eq_self_of_head {p : Char → Bool} {l : List Char}
    (h : ∀ c, l.head? = some c → p c = false) : l.dropWhile p = l := by
  cases l with
  | nil => rfl
  | cons a t => simp only [List.dropWhile, h a rfl]

theorem jsTrim_eq_self {s : String}
    (h1 : ∀ c, s.data.head? = some c → jsWs c = false)
    (h2 : ∀ c, s.data.getLast? = some c → jsWs c = false) : jsTrim s = s := by
  have h1r : ∀ c, s.data.reverse.head? = some c → jsWs c = false := by
    intro c hc
    apply h2
    rwa [List.head?_reverse] at hc
  unfold jsTrim
  rw [dropWhile_eq_self_of_head h1, dropWhile_eq_self_of_head h1r,
    List.reverse_reverse]

theorem replaceWsFence_skip : ∀ (pre : List Char),
    (∀ c ∈ pre, c ≠ '\x60') →
    (∀ c, pre.getLast? = some c → jsWs c = false) →
    replaceWsFence (pre ++ '\n' :: ticks) = pre := by
  intro pre
  induction pre with
  | nil =>
    intro hb hl
    decide
  | cons c p ih =>
    intro hb hl
    have hbp : ∀ c' ∈ p, c' ≠ '\x60' := fun c' hm => hb c' (List.mem_cons_of_mem _ hm)
    have hlp : ∀ lc, p.getLast? = some lc → jsWs lc = false := by
      intro lc hlc
      apply hl
      cases p with
      | nil => simp at hlc
      | cons d u => rwa [List.getLast?_cons_cons]
    have hnw : ∃ x ∈ c :: p, jsWs x = false := by
      have hnil : (c :: p) ≠ [] := by simp
      exact ⟨(c :: p).getLast hnil, List.getLast_mem hnil,
        hl _ (List.getLast?_eq_getLast_of_ne_nil hnil)⟩
    obtain ⟨lx, hlxmem, hlxnw⟩ := hnw
    have hfence : wsFenceAt ((c :: p) ++ '\n' :: ticks) = none := by
      apply wsFenceAt_none
      intro j hj heq
      rcases Nat.lt_or_ge j (leadingWsCount ((c :: p) ++ '\n' :: ticks)) with hlt | hge
      · have := drop_head_ws _ j hlt _ heq
        rw [show jsWs '\x60' = false from rfl] at this
        cases this
      · have hje : j = leadingWsCount ((c :: p) ++ '\n' :: ticks) := Nat.le_antisymm hj hge
        subst hje
        rw [drop_leadingWs] at heq
        rw [dropWhile_append_ne (l := c :: p) (r := '\n' :: ticks)
          (dropWhile_ne_nil_of_mem hlxmem hlxnw)] at heq
        cases hdw : (c :: p).dropWhile jsWs with
        | nil => exact dropWhile_ne_nil_of_mem hlxmem hlxnw hdw
        | cons y ys =>
          rw [hdw] at heq
          have hy : y = '\x60' := by
            simpa using heq
          have hymem : y ∈ c :: p :=
            (List.dropWhile_sublist (p := jsWs) (l := c :: p)).mem
              (by rw [hdw]; exact List.mem_cons_self y ys)
          exact hb y hymem hy
    rw [List.cons_append]
    show (match wsFenceAt (c :: (p ++ '\n' :: ticks)) with
          | some rest => rest
          | none => c :: replaceWsFence (p ++ '\n' :: ticks)) = c :: p
    rw [show wsFenceAt (c :: (p ++ '\n' :: ticks)) = none from hfence]
    rw [ih hbp hlp]

theorem isPrefixOf_self_append : ∀ (l r : List Char), l.isPrefixOf (l ++ r) = true := by
  intro l r
  induction l with
  | nil => simp [List.isPrefixOf]
  | cons c t ih =>
    rw [List.cons_append]
    show (c == c && t.isPrefixOf (t ++ r)) = true
    rw [ih]
    simp

theorem replaceLitThenWs_at_start (lit rest : List Char) (hne : lit ≠ []) :
    replaceLitThenWs lit (lit ++ rest) = rest.dropWhile jsWs := by
  cases lit with
  | nil => exact absurd rfl hne
  | cons c l2 =>
    rw [List.cons_append]
    show (if (c :: l2).isPrefixOf (c :: (l2 ++ rest)) = true then
            ((c :: (l2 ++ rest)).drop (c :: l2).length).dropWhile jsWs
          else c :: replaceLitThenWs (c :: l2) (l2 ++ rest)) = rest.dropWhile jsWs
    rw [if_pos (show (c :: l2).isPrefixOf (c :: (l2 ++ rest)) = true from
          isPrefixOf_self_append (c :: l2) rest)]
    rw [show (c :: (l2 ++ rest)).drop (c :: l2).length = rest from by
          rw [← List.cons_append]
          exact List.drop_left _ _]

theorem fence_core (lit : List Char) (hne : lit ≠ []) (inner : String)
    (hb : ∀ c ∈ inner.data, c ≠ '\x60')
    (h1 : ∀ c, inner.data.head? = some c → jsWs c = false)
    (h2 : ∀ c, inner.data.getLast? = some c → jsWs c = false) :
    replaceWsFence (replaceLitThenWs lit
        (lit ++ ('\n' :: (inner.data ++ '\n' :: ticks)))) = inner.data := by
  rw [replaceLitThenWs_at_start lit _ hne]
  rw [show List.dropWhile jsWs ('\n' :: (inner.data ++ '\n' :: ticks)) =
        List.dropWhile jsWs (inner.data ++ '\n' :: ticks) from rfl]
  cases hd : inner.data with
  | nil => decide
  | cons x xs =>
    have hx : jsWs x = false := h1 x (by rw [hd]; rfl)
    rw [show List.dropWhile jsWs ((x :: xs) ++ '\n' :: ticks) =
          (x :: xs) ++ '\n' :: ticks from by
        rw [List.cons_append]
        exact dropWhile_eq_self_of_head (fun c hc => by
          injection hc with hc
          rw [← hc]
          exact hx)]
    exact replaceWsFence_skip (x :: xs) (hd ▸ hb) (hd ▸ h2)

theorem cleanAIText_fenced (inner : String)
    (hb : ∀ c ∈ inner.data, c ≠ '\x60')
    (h1 : ∀ c, inner.data.head? = some c → jsWs c = false)
    (h2 : ∀ c, inner.data.getLast? = some c → jsWs c = false) :
    cleanAIText ("\x60\x60\x60json\n" ++ inner ++ "\n\x60\x60\x60") = inner ∧
    cleanAIText ("\x60\x60\x60\n" ++ inner ++ "\n\x60\x60\x60") = inner := by
  have hmidne : inner.data ++ '\n' :: ticks ≠ [] := by
    intro hc
    have := (List.append_eq_nil.mp hc).2
    cases this
  constructor
  · have hCdata : ("\x60\x60\x60json\n" ++ inner ++ "\n\x60\x60\x60" : String).data
        = "\x60\x60\x60json".data ++ ('\n' :: (inner.data ++ '\n' :: ticks)) := by
      rw [data_append, data_append]
      rw [show ("\x60\x60\x60json\n" : String).data
            = "\x60\x60\x60json".data ++ ['\n'] from rfl]
      rw [show ("\n\x60\x60\x60" : String).data = '\n' :: ticks from rfl]
      simp [List.append_assoc]
    have h1C : ∀ c, ("\x60\x60\x60json\n" ++ inner ++ "\n\x60\x60\x60" : String).data.head?
        = some c → jsWs c = false := by
      intro c hc
      rw [hCdata] at hc
      have : '\x60' = c := by simpa using hc
      rw [← this]
      rfl
    have h2C : ∀ c, ("\x60\x60\x60json\n" ++ inner ++ "\n\x60\x60\x60" : String).data.getLast?
        = some c → jsWs c = false := by
      intro c hc
      rw [hCdata] at hc
      rw [show ('\n' :: (inner.data ++ '\n' :: ticks))
            = ('\n' :: inner.data) ++ ('\n' :: ticks) from by
          rw [List.cons_append]] at hc
      rw [List.getLast?_append_of_ne_nil _ (by simp)] at hc
      rw [List.getLast?_append_of_ne_nil _ (by simp)] at hc
      have : '\x60' = c := by
        have hlast : ('\n' :: ticks).getLast? = some '\x60' := by decide
        rw [hlast] at hc
        simpa using hc
      rw [← this]
      rfl
    have htrim : jsTrim ("\x60\x60\x60json\n" ++ inner ++ "\n\x60\x60\x60") =
        ("\x60\x60\x60json\n" ++ inner ++ "\n\x60\x60\x60") := jsTrim_eq_self h1C h2C
    have hsw : startsWithJs ("\x60\x60\x60json\n" ++ inner ++ "\n\x60\x60\x60")
        "\x60\x60\x60json" = true := by
      unfold startsWithJs
      rw [hCdata]
      exact isPrefixOf_self_append _ _
    unfold cleanAIText
    dsimp only
    rw [htrim, if_pos hsw, hCdata]
    rw [fence_core "\x60\x60\x60json".data (by decide) inner hb h1 h2]
  · have hCdata : ("\x60\x60\x60\n" ++ inner ++ "\n\x60\x60\x60" : String).data
        = "\x60\x60\x60".data ++ ('\n' :: (inner.data ++ '\n' :: ticks)) := by
      rw [data_append, data_append]
      rw [show ("\x60\x60\x60\n" : String).data = "\x60\x60\x60".data ++ ['\n'] from rfl]
      rw [show ("\n\x60\x60\x60" : String).data = '\n' :: ticks from rfl]
      simp [List.append_assoc]
    have h1C : ∀ c, ("\x60\x60\x60\n" ++ inner ++ "\n\x60\x60\x60" : String).data.head?
        = some c → jsWs c = false := by
      intro c hc
      rw [hCdata] at hc
      have : '\x60' = c := by simpa using hc
      rw [← this]
      rfl
    have h2C : ∀ c, ("\x60\x60\x60\n" ++ inner ++ "\n\x60\x60\x60" : String).data.getLast?
        = some c → jsWs c = false := by
      intro c hc
      rw [hCdata] at hc
      rw [show ('\n' :: (inner.data ++ '\n' :: ticks))
            = ('\n' :: inner.data) ++ ('\n' :: ticks) from by
          rw [List.cons_append]] at hc
      rw [List.getLast?_append_of_ne_nil _ (by simp)] at hc
      rw [List.getLast?_append_of_ne_nil _ (by simp)] at hc
      have : '\x60' = c := by
        have hlast : ('\n' :: ticks).getLast? = some '\x60' := by decide
        rw [hlast] at hc
        simpa using hc
      rw [← this]
      rfl
    have htrim : jsTrim ("\x60\x60\x60\n" ++ inner ++ "\n\x60\x60\x60") =
        ("\x60\x60\x60\n" ++ inner ++ "\n\x60\x60\x60") := jsTrim_eq_self h1C h2C
    have hswq : startsWithJs ("\x60\x60\x60\n" ++ inner ++ "\n\x60\x60\x60")
        "\x60\x60\x60json" = false := by
      unfold startsWithJs
      rw [hCdata]
      rfl
    have hsw : startsWithJs ("\x60\x60\x60\n" ++ inner ++ "\n\x60\x60\x60")
        "\x60\x60\x60" = true := by
      unfold startsWithJs
      rw [hCdata]
      exact isPrefixOf_self_append _ _
    unfold cleanAIText
    dsimp only
    rw [htrim, if_neg (by simp [hswq]), if_pos hsw, hCdata]
    rw [fence_core "\x60\x60\x60".data (by decide) inner hb h1 h2]

/- ===== Claim C6 ===== -/

/-- C6, corrected.  The stateless variant (generateLearningWithAI) hands the
    parser exactly the greedy brace match of the raw text: the substring from
    the first left brace to the last right brace, which covers both a fenced
    response and prose around a JSON object.  The AI variant
    (generateTopicWithAI) strips a wrapping ```json or ``` fence, handing the
    parser the inner text, but performs no brace extraction at all, so prose
    around a brace object is passed through unchanged there. -/
theorem C6_cleanup :
    (∀ pre body post : List Char,
      '\x7b' ∉ pre → '\x7d' ∉ post → body.getLast? = some '\x7d' →
      extractJsonText (String.mk (pre ++ '\x7b' :: (body ++ post))) =
        String.mk ('\x7b' :: body)) ∧
    (∀ inner : String,
      (∀ c ∈ inner.data, c ≠ '\x60') →
      (∀ c, inner.data.head? = some c → jsWs c = false) →
      (∀ c, inner.data.getLast? = some c → jsWs c = false) →
      cleanAIText ("\x60\x60\x60json\n" ++ inner ++ "\n\x60\x60\x60") = inner ∧
      cleanAIText ("\x60\x60\x60\n" ++ inner ++ "\n\x60\x60\x60") = inner) :=
  ⟨extractJsonText_extracts, cleanAIText_fenced⟩

/-- C6 witness: the brace extraction applied to prose around a small JSON
    object and the fence stripping applied to the same object wrapped in a
    ```json fence, with all hypotheses checked by computation. -/
theorem C6_witness :
    extractJsonText "Sure! \x7b\x22a\x22:1\x7d done" = "\x7b\x22a\x22:1\x7d" ∧
    cleanAIText "\x60\x60\x60json\n\x7b\x22a\x22:1\x7d\n\x60\x60\x60" = "\x7b\x22a\x22:1\x7d" :=
  ⟨C6_cleanup.1 ("Sure! ".data) ("\x22a\x22:1\x7d".data) (" done".data)
      (by decide) (by decide) (by decide),
   (C6_cleanup.2 "\x7b\x22a\x22:1\x7d" (by decide) (by decide) (by decide)).1⟩

/-- C6 counterexample: the AI-variant cleanup leaves prose around a brace
    object untouched (the whole prose string, not the extracted object, is
    what gets parsed), so the claim that generate extracts the first
    balanced brace substring fails for that variant. -/
theorem C6_counterexample :
    cleanAIText "Sure! \x7b\x22a\x22:1\x7d" = "Sure! \x7b\x22a\x22:1\x7d" ∧
    cleanAIText "Sure! \x7b\x22a\x22:1\x7d" ≠ "\x7b\x22a\x22:1\x7d" := by
  constructor <;> decide
